import Mathlib

/-!
Shallow embedding of `src/scripts/op_to_yaml.py`: a script that fetches a
1Password item via the `op` CLI subprocess, parses its JSON output, checks
for duplicate field labels, and prints a Kubernetes Secret manifest.

The script's observable behaviour is modelled as a pure function of
  * the command-line argument vector (`sys.argv`, programme name included),
  * the captured subprocess result (`returncode`, decoded `stdout`/`stderr`),
  * the outcome of `json.loads` on the captured stdout (the JSON parser is
    Python library code external to the repository, so it enters the model
    as an `Except` argument: a parse-error message, or the parsed object).
The result records the lines printed to standard output, the lines printed
to standard error, and how the process terminates.
-/

namespace OpToYaml

set_option maxRecDepth 4000

/-- A field dict of the parsed JSON item. The script reads exactly the keys
"label", "value" and "type" of each field, always with `dict.get`, which
yields `None` when the key is absent; so each is modelled as an optional
string. -/
structure Field where
  label : Option String
  value : Option String
  type : Option String
deriving DecidableEq, Repr

/-- The parsed JSON response (`content` in the script). The script performs a
single access on it, the subscript `content["fields"]`, expected to yield the
list of field dicts; `fields = none` models a JSON object without a "fields"
key, on which the subscript raises an uncaught `KeyError`. -/
structure Content where
  fields : Option (List Field)
deriving DecidableEq, Repr

/-- The captured result of `subprocess.run(...)`: exit code plus the decoded
`stdout` and `stderr` pipes. -/
structure SubprocResult where
  returncode : Int
  stdout : String
  stderr : String
deriving DecidableEq, Repr

/-- How a run of the script terminates: normal completion, `sys.exit(1)`
(modelled as `failure 1`; `sys.exit(msg)` prints `msg` to stderr and also
exits with code 1), or an uncaught Python exception (the interpreter prints
a traceback and exits). -/
inductive ExitStatus where
  | success
  | failure (code : Nat)
  | uncaught (exc : String)
deriving DecidableEq, Repr

/-- The observable outcome of one run: the lines printed to standard output,
the lines printed to standard error, and the termination status. -/
structure RunResult where
  stdoutLines : List String
  stderrLines : List String
  exit : ExitStatus
deriving DecidableEq, Repr

/-- Interpolating a `dict.get` result into an f-string: Python renders the
value `None` as the text "None", and a string as itself. -/
def pyShow : Option String → String
  | none => "None"
  | some s => s

/-- The whitespace characters stripped by Python's no-argument `str.strip()`
(ASCII part: space, tab, linefeed, carriage return, vertical tab, form
feed). -/
def isPySpace (c : Char) : Bool :=
  c = ' ' || c = '\t' || c = '\n' || c = '\x0d' || c = '\x0b' || c = '\x0c'

/-- Python slice `secret[:n]`: the first `n` characters of the string (the
whole string when it is shorter). -/
def pyTake (n : Nat) (s : String) : String :=
  String.mk (s.toList.take n)

/-- The test `not secret.strip()` of line 20: true iff the captured stdout is
empty or consists only of whitespace. -/
def stripIsEmpty (s : String) : Bool :=
  s.toList.all isPySpace

/-- The dupecheck loop of lines 37-43: scan the field list once, keeping a
dict from label to value; `key in dupecheck` tests key membership. Returns
the first label already present in the dict (the script calls `sys.exit`
there), or `none` when the scan completes without a collision. -/
def dupecheckLoop : List Field → List (Option String × Option String) → Option (Option String)
  | [], _ => none
  | f :: rest, dupecheck =>
    if (dupecheck.map Prod.fst).contains f.label then some f.label
    else dupecheckLoop rest (dupecheck ++ [(f.label, f.value)])

/-- The `stringData` entry printed for one field on line 51: two spaces, the
label, a colon, and the value wrapped in literal double quotes, with no
escaping of the value. -/
def fieldLine (f : Field) : String :=
  "  " ++ pyShow f.label ++ ": \"" ++ pyShow f.value ++ "\""

/-- The filter condition of line 50: the field's type is "CONCEALED" and its
label is not "password" (Python `==`/`!=` on a `dict.get` result compares
`None` unequal to any string). -/
def emitCond (f : Field) : Bool :=
  f.type == some "CONCEALED" && f.label != some "password"

/-- The emission loop of lines 46-51: a second pass over the field list that
prints a `stringData` entry for every field satisfying `emitCond`. -/
def emitLoop : List Field → List String
  | [] => []
  | f :: rest =>
    if emitCond f then
      fieldLine f :: emitLoop rest
    else
      emitLoop rest

/-- The five fixed lines printed on lines 31-35, before either field pass:
the manifest header and the `stringData:` opener. -/
def headerLines (secret_name : String) : List String :=
  ["apiVersion: v1", "kind: Secret", "metadata:",
   "  name: " ++ secret_name, "stringData:"]

/-- The script top level, line by line.  `argv` is `sys.argv` (element 0 is
the programme name); an out-of-range `sys.argv[1]` or `sys.argv[2]` raises an
uncaught `IndexError`.  `sub` is the captured subprocess result, and `parsed`
is the outcome of `json.loads` on `sub.stdout` (supplied as an argument since
the JSON parser is external library code). -/
def run (argv : List String) (sub : SubprocResult) (parsed : Except String Content) : RunResult :=
  match argv[1]? with
  | none => ⟨[], [], .uncaught "IndexError: list index out of range"⟩
  | some vault_id =>
    match argv[2]? with
    | none => ⟨[], [], .uncaught "IndexError: list index out of range"⟩
    | some item_name =>
      let secret_name := if h : 3 < argv.length then argv[3] else item_name
      if sub.returncode ≠ 0 then
        ⟨[], ["Error fetching item '" ++ item_name ++ "' from vault '" ++ vault_id ++ "':",
              sub.stderr], .failure 1⟩
      else
        let secret := sub.stdout
        if stripIsEmpty secret then
          ⟨[], ["Error: Empty response from 1Password for item '" ++ item_name ++ "'"], .failure 1⟩
        else
          match parsed with
          | .error e =>
            ⟨[], ["Error parsing JSON response: " ++ e,
                  "Raw response: " ++ pyTake 500 secret], .failure 1⟩
          | .ok content =>
            match content.fields with
            | none => ⟨headerLines secret_name, [], .uncaught "KeyError: 'fields'"⟩
            | some fields =>
              match dupecheckLoop fields [] with
              | some key =>
                ⟨headerLines secret_name,
                 ["Error: duplicate key: " ++ pyShow key], .failure 1⟩
              | none =>
                ⟨headerLines secret_name ++ emitLoop fields, [], .success⟩

/-! ## Characterisations of the two field passes -/

/-- The emission loop prints exactly the `emitCond` fields, in original
order, one `fieldLine` each. -/
lemma emitLoop_eq_filter (fs : List Field) :
    emitLoop fs = (fs.filter emitCond).map fieldLine := by
  induction fs with
  | nil => rfl
  | cons f rest ih =>
    simp only [emitLoop, List.filter_cons]
    split <;> simp [ih]

/-- Specification view of the duplicate scan: the first element of the list
that already occurred (in `seen` or earlier in the list), scanning left to
right. Stated on bare labels, with no field types or values in sight. -/
def firstDup (seen : List (Option String)) : List (Option String) → Option (Option String)
  | [] => none
  | l :: rest => if seen.contains l then some l else firstDup (seen ++ [l]) rest

/-- The dupecheck loop depends only on the labels of the fields: it returns
the first repeated label of the full field list, whatever the types and
values — so fields that the emission pass would skip participate equally. -/
lemma dupecheckLoop_eq_firstDup (fs : List Field) (d : List (Option String × Option String)) :
    dupecheckLoop fs d = firstDup (d.map Prod.fst) (fs.map Field.label) := by
  induction fs generalizing d with
  | nil => rfl
  | cons f rest ih =>
    simp only [dupecheckLoop, List.map_cons, firstDup]
    split
    · rfl
    · rw [ih]
      simp [List.map_append]

/-! ## The claims -/

/-- Claim C4: with vault `v1`, item `db-creds`, no third argument, and the
retrieved record holding a STRING `username`, a CONCEALED `api_key` and a
CONCEALED `password`, standard output is exactly the six lines
`apiVersion: v1`, `kind: Secret`, `metadata:`, `  name: db-creds`,
`stringData:`, `  api_key: "xyz123"` (and the run succeeds with nothing on
standard error). The subprocess stdout is the item's JSON text; `parsed` is
its parse. -/
theorem C4_roundtrip_example :
    run ["op_to_yaml.py", "v1", "db-creds"]
      ⟨0,
       "\x7b\"fields\": [\x7b\"label\": \"username\", \"value\": \"admin\", \"type\": \"STRING\"\x7d, \x7b\"label\": \"api_key\", \"value\": \"xyz123\", \"type\": \"CONCEALED\"\x7d, \x7b\"label\": \"password\", \"value\": \"secret\", \"type\": \"CONCEALED\"\x7d]\x7d",
       ""⟩
      (Except.ok ⟨some [⟨some "username", some "admin", some "STRING"⟩,
                        ⟨some "api_key", some "xyz123", some "CONCEALED"⟩,
                        ⟨some "password", some "secret", some "CONCEALED"⟩]⟩) =
      ⟨["apiVersion: v1", "kind: Secret", "metadata:", "  name: db-creds",
        "stringData:", "  api_key: \"xyz123\""], [], .success⟩ := by
  decide

/-- Claim C6: whenever the subprocess exits non-zero, the run prints the
captured error stream, preceded by a line naming the vault and the item, to
standard error, prints nothing on standard output, and terminates with exit
code 1. -/
theorem C6_retrieval_error (p v i : String) (rest : List String) (sub : SubprocResult)
    (parsed : Except String Content) (h : sub.returncode ≠ 0) :
    run (p :: v :: i :: rest) sub parsed =
      ⟨[], ["Error fetching item '" ++ i ++ "' from vault '" ++ v ++ "':", sub.stderr],
       .failure 1⟩ := by
  simp [run, h]

/-- Witness for C6 at a concrete failing subprocess. -/
theorem C6_retrieval_error_witness :
    run ["op_to_yaml.py", "v1", "db-creds"] ⟨1, "", "op: vault not found"⟩ (Except.error "e") =
      ⟨[], ["Error fetching item 'db-creds' from vault 'v1':", "op: vault not found"],
       .failure 1⟩ :=
  C6_retrieval_error "op_to_yaml.py" "v1" "db-creds" [] ⟨1, "", "op: vault not found"⟩
    (Except.error "e") (by decide)

/-- Claim C7: whenever the subprocess exits zero but its captured standard
output is empty or whitespace-only, the run prints the empty-response
diagnostic (naming the item) to standard error, writes no manifest, and
terminates with exit code 1. -/
theorem C7_empty_response (p v i : String) (rest : List String) (sub : SubprocResult)
    (parsed : Except String Content) (hrc : sub.returncode = 0)
    (hempty : stripIsEmpty sub.stdout = true) :
    run (p :: v :: i :: rest) sub parsed =
      ⟨[], ["Error: Empty response from 1Password for item '" ++ i ++ "'"], .failure 1⟩ := by
  simp [run, hrc, hempty]

/-- Witness for C7 at a whitespace-only subprocess stdout. -/
theorem C7_empty_response_witness :
    run ["op_to_yaml.py", "v1", "db-creds"] ⟨0, " \t\n", ""⟩ (Except.error "e") =
      ⟨[], ["Error: Empty response from 1Password for item 'db-creds'"], .failure 1⟩ :=
  C7_empty_response "op_to_yaml.py" "v1" "db-creds" [] ⟨0, " \t\n", ""⟩
    (Except.error "e") (by decide) (by decide)

/-- Claim C8: whenever the subprocess's non-empty standard output does not
parse as JSON, the run prints the parse error and the first 500 characters
of the raw response to standard error, writes no manifest, and terminates
with exit code 1. -/
theorem C8_malformed_json (p v i : String) (rest : List String) (sub : SubprocResult)
    (e : String) (hrc : sub.returncode = 0) (hne : stripIsEmpty sub.stdout = false) :
    run (p :: v :: i :: rest) sub (Except.error e) =
      ⟨[], ["Error parsing JSON response: " ++ e,
            "Raw response: " ++ pyTake 500 sub.stdout], .failure 1⟩ := by
  simp [run, hrc, hne]

/-- Witness for C8 at the spec's example stdout "not json". -/
theorem C8_malformed_json_witness :
    run ["op_to_yaml.py", "v1", "db-creds"] ⟨0, "not json", ""⟩
      (Except.error "Expecting value: line 1 column 1 (char 0)") =
      ⟨[], ["Error parsing JSON response: Expecting value: line 1 column 1 (char 0)",
            "Raw response: not json"], .failure 1⟩ :=
  C8_malformed_json "op_to_yaml.py" "v1" "db-creds" [] ⟨0, "not json", ""⟩
    "Expecting value: line 1 column 1 (char 0)" (by decide) (by decide)

/-- Claim C2: for every Item Record that passes validation, the emitted
`stringData` block — the standard-output lines after the five fixed header
lines — consists of exactly the fields whose type is "CONCEALED" and whose
label is not "password", in original field order and no others, each printed
by `fieldLine` (label, colon, value wrapped in literal double quotes, no
escaping). -/
theorem C2_stringData_filter (p v i : String) (sub : SubprocResult) (content : Content)
    (fields : List Field) (hrc : sub.returncode = 0) (hne : stripIsEmpty sub.stdout = false)
    (hf : content.fields = some fields) (hdup : dupecheckLoop fields [] = none) :
    (run [p, v, i] sub (Except.ok content)).stdoutLines =
      headerLines i ++ (fields.filter emitCond).map fieldLine := by
  simp [run, hrc, hne, hf, hdup, emitLoop_eq_filter]

/-- Witness for C2 at the three-field record of the spec's round-trip
example: only the CONCEALED, non-"password" field survives the filter. -/
theorem C2_stringData_filter_witness :
    (run ["op_to_yaml.py", "v1", "db-creds"] ⟨0, "x", ""⟩
       (Except.ok ⟨some [⟨some "username", some "admin", some "STRING"⟩,
                         ⟨some "api_key", some "xyz123", some "CONCEALED"⟩,
                         ⟨some "password", some "secret", some "CONCEALED"⟩]⟩)).stdoutLines =
      headerLines "db-creds" ++
        (([⟨some "username", some "admin", some "STRING"⟩,
           ⟨some "api_key", some "xyz123", some "CONCEALED"⟩,
           ⟨some "password", some "secret", some "CONCEALED"⟩] : List Field).filter
             emitCond).map fieldLine :=
  C2_stringData_filter "op_to_yaml.py" "v1" "db-creds" ⟨0, "x", ""⟩
    ⟨some [⟨some "username", some "admin", some "STRING"⟩,
           ⟨some "api_key", some "xyz123", some "CONCEALED"⟩,
           ⟨some "password", some "secret", some "CONCEALED"⟩]⟩
    [⟨some "username", some "admin", some "STRING"⟩,
     ⟨some "api_key", some "xyz123", some "CONCEALED"⟩,
     ⟨some "password", some "secret", some "CONCEALED"⟩]
    (by decide) (by decide) rfl (by decide)

/-- Claim C5: whenever the run reaches the manifest (the JSON parsed), the
`metadata.name` line — index 3 of standard output — equals the item name
when the third positional argument is omitted, and equals the supplied
secret name otherwise. -/
theorem C5_metadata_name (p v i sn : String) (sub : SubprocResult) (content : Content)
    (hrc : sub.returncode = 0) (hne : stripIsEmpty sub.stdout = false) :
    ((run [p, v, i] sub (Except.ok content)).stdoutLines)[3]? = some ("  name: " ++ i) ∧
    ((run [p, v, i, sn] sub (Except.ok content)).stdoutLines)[3]? = some ("  name: " ++ sn) := by
  rcases content with ⟨_ | fields⟩
  · constructor <;> simp [run, hrc, hne, headerLines]
  · rcases h : dupecheckLoop fields [] with _ | k <;>
      constructor <;> simp [run, hrc, hne, h, headerLines]

/-- Witness for C5 at a concrete item and secret name. -/
theorem C5_metadata_name_witness :
    ((run ["op_to_yaml.py", "v1", "db-creds"] ⟨0, "x", ""⟩
        (Except.ok ⟨some []⟩)).stdoutLines)[3]? = some ("  name: " ++ "db-creds") ∧
    ((run ["op_to_yaml.py", "v1", "db-creds", "my-secret"] ⟨0, "x", ""⟩
        (Except.ok ⟨some []⟩)).stdoutLines)[3]? = some ("  name: " ++ "my-secret") :=
  C5_metadata_name "op_to_yaml.py" "v1" "db-creds" "my-secret" ⟨0, "x", ""⟩ ⟨some []⟩
    (by decide) (by decide)

/-- Claim C10: when the subprocess output parses as JSON but the object has
no "fields" key, the subscript `content["fields"]` raises an uncaught
`KeyError` — not one of the four handled error kinds — after the four header
lines and the `stringData:` line are already on standard output, so a
partial manifest is produced. -/
theorem C10_missing_fields_key (p v i : String) (sub : SubprocResult) (content : Content)
    (hrc : sub.returncode = 0) (hne : stripIsEmpty sub.stdout = false)
    (hf : content.fields = none) :
    run [p, v, i] sub (Except.ok content) =
      ⟨headerLines i, [], .uncaught "KeyError: 'fields'"⟩ := by
  simp [run, hrc, hne, hf]

/-- Witness for C10 at a concrete fields-less JSON object. -/
theorem C10_missing_fields_key_witness :
    run ["op_to_yaml.py", "v1", "db-creds"] ⟨0, "\x7b\x7d", ""⟩ (Except.ok ⟨none⟩) =
      ⟨headerLines "db-creds", [], .uncaught "KeyError: 'fields'"⟩ :=
  C10_missing_fields_key "op_to_yaml.py" "v1" "db-creds" ⟨0, "\x7b\x7d", ""⟩ ⟨none⟩
    (by decide) (by decide) rfl

/-- Claim C1 as stated is false: at a concrete record with two fields
labelled "a", the run does fail with the duplicate-key diagnostic and exit
code 1, but standard output is not empty — the five header lines were
printed before the duplicate pre-scan ran (lines 31-35 of the script precede
the dupecheck loop of lines 37-43). -/
theorem C1_counterexample :
    run ["op_to_yaml.py", "v1", "db-creds"] ⟨0, "x", ""⟩
      (Except.ok ⟨some [⟨some "a", some "1", some "STRING"⟩,
                        ⟨some "a", some "2", some "CONCEALED"⟩]⟩) =
      ⟨headerLines "db-creds", ["Error: duplicate key: a"], .failure 1⟩ ∧
    headerLines "db-creds" ≠ [] := by
  decide

/-- Claim C1 amended: for any Item Record containing two fields with the
same label, the run fails with the duplicate-field error and exit code 1 and
emits no `stringData` entries — but the five header lines are printed to
standard output before the duplicate pre-scan runs, so the head of the
manifest is emitted before the validation failure is discovered. -/
theorem C1_dup_error_after_header (p v i : String) (sub : SubprocResult) (content : Content)
    (fields : List Field) (k : Option String) (hrc : sub.returncode = 0)
    (hne : stripIsEmpty sub.stdout = false) (hf : content.fields = some fields)
    (hdup : dupecheckLoop fields [] = some k) :
    run [p, v, i] sub (Except.ok content) =
      ⟨headerLines i, ["Error: duplicate key: " ++ pyShow k], .failure 1⟩ := by
  simp [run, hrc, hne, hf, hdup]

/-- Witness for the amended C1 at a record with a repeated label "a". -/
theorem C1_dup_error_after_header_witness :
    run ["op_to_yaml.py", "v1", "creds"] ⟨0, "y", ""⟩
      (Except.ok ⟨some [⟨some "a", some "1", some "CONCEALED"⟩,
                        ⟨some "b", some "2", some "CONCEALED"⟩,
                        ⟨some "a", some "3", some "CONCEALED"⟩]⟩) =
      ⟨headerLines "creds", ["Error: duplicate key: " ++ pyShow (some "a")], .failure 1⟩ :=
  C1_dup_error_after_header "op_to_yaml.py" "v1" "creds" ⟨0, "y", ""⟩
    ⟨some [⟨some "a", some "1", some "CONCEALED"⟩,
           ⟨some "b", some "2", some "CONCEALED"⟩,
           ⟨some "a", some "3", some "CONCEALED"⟩]⟩
    [⟨some "a", some "1", some "CONCEALED"⟩,
     ⟨some "b", some "2", some "CONCEALED"⟩,
     ⟨some "a", some "3", some "CONCEALED"⟩]
    (some "a") (by decide) (by decide) rfl (by decide)

/-- Claim C3: on the first label already present in the duplicate-check
mapping the run terminates with exit code 1 and a standard-error diagnostic
naming that label; and the scan is over the full field list on labels alone —
`dupecheckLoop` coincides with the label-only `firstDup` scan, so field
types and values (and hence whether a field would later be emitted) play no
part in validation. -/
theorem C3_duplicate_validation (p v i : String) (sub : SubprocResult) (content : Content)
    (fields : List Field) (k : Option String) (hrc : sub.returncode = 0)
    (hne : stripIsEmpty sub.stdout = false) (hf : content.fields = some fields)
    (hdup : dupecheckLoop fields [] = some k) :
    (run [p, v, i] sub (Except.ok content)).exit = .failure 1 ∧
    (run [p, v, i] sub (Except.ok content)).stderrLines =
      ["Error: duplicate key: " ++ pyShow k] ∧
    dupecheckLoop fields [] = firstDup [] (fields.map Field.label) := by
  refine ⟨?_, ?_, dupecheckLoop_eq_firstDup fields []⟩ <;>
    simp [run, hrc, hne, hf, hdup]

/-- Witness for C3 at a record whose repeated label sits on fields the
emission pass would skip (a CONCEALED "password" and a plain STRING). -/
theorem C3_duplicate_validation_witness :
    (run ["op_to_yaml.py", "v1", "creds"] ⟨0, "z", ""⟩
       (Except.ok ⟨some [⟨some "password", some "p1", some "CONCEALED"⟩,
                         ⟨some "password", some "p2", some "STRING"⟩]⟩)).exit = .failure 1 ∧
    (run ["op_to_yaml.py", "v1", "creds"] ⟨0, "z", ""⟩
       (Except.ok ⟨some [⟨some "password", some "p1", some "CONCEALED"⟩,
                         ⟨some "password", some "p2", some "STRING"⟩]⟩)).stderrLines =
      ["Error: duplicate key: " ++ pyShow (some "password")] ∧
    dupecheckLoop [⟨some "password", some "p1", some "CONCEALED"⟩,
                   ⟨some "password", some "p2", some "STRING"⟩] [] =
      firstDup [] (([⟨some "password", some "p1", some "CONCEALED"⟩,
                     ⟨some "password", some "p2", some "STRING"⟩] : List Field).map Field.label) :=
  C3_duplicate_validation "op_to_yaml.py" "v1" "creds" ⟨0, "z", ""⟩
    ⟨some [⟨some "password", some "p1", some "CONCEALED"⟩,
           ⟨some "password", some "p2", some "STRING"⟩]⟩
    [⟨some "password", some "p1", some "CONCEALED"⟩,
     ⟨some "password", some "p2", some "STRING"⟩]
    (some "password") (by decide) (by decide) rfl (by decide)

/-- Claim C9 as stated is false: with `item_name` absent (one command-line
argument), the script prints no usage diagnostic — the unguarded
`sys.argv[2]` access raises an uncaught IndexError (the interpreter
terminates with a traceback), with nothing printed by the script itself on
either stream. -/
theorem C9_counterexample :
    run ["op_to_yaml.py", "v1"] ⟨0, "x", ""⟩ (Except.error "e") =
      ⟨[], [], .uncaught "IndexError: list index out of range"⟩ := by
  decide

/-- Claim C9 amended: when fewer than two positional arguments are supplied
the run terminates with an uncaught IndexError from the unguarded
`sys.argv` access, printing neither manifest nor usage message; and with
both required arguments present no out-of-range access occurs (only the
optional third argument's access is guarded, by the length test of
line 11). -/
theorem C9_unguarded_argv (sub : SubprocResult) (parsed : Except String Content) :
    (∀ argv : List String, argv.length < 3 →
        run argv sub parsed = ⟨[], [], .uncaught "IndexError: list index out of range"⟩) ∧
    (∀ argv : List String, 3 ≤ argv.length →
        (run argv sub parsed).exit ≠ .uncaught "IndexError: list index out of range") := by
  constructor
  · intro argv h
    match argv, h with
    | [], _ => rfl
    | [_], _ => rfl
    | [_, _], _ => rfl
  · intro argv h
    match argv, h with
    | p :: v :: i :: rest, _ =>
      by_cases h1 : sub.returncode ≠ 0
      · simp [run, h1]
      · by_cases h2 : stripIsEmpty sub.stdout
        · simp [run, h1, h2]
        · rcases parsed with e | ⟨_ | fields⟩
          · simp [run, h1, h2]
          · simp [run, h1, h2]
          · rcases hd : dupecheckLoop fields [] with _ | k <;>
              simp [run, h1, h2, hd]

/-- Witness for the amended C9: the missing-argument invocation and a
complete invocation, both at concrete inputs. -/
theorem C9_unguarded_argv_witness :
    run ["op_to_yaml.py"] ⟨0, "x", ""⟩ (Except.error "e") =
      ⟨[], [], .uncaught "IndexError: list index out of range"⟩ ∧
    (run ["op_to_yaml.py", "v1", "db-creds"] ⟨0, "x", ""⟩ (Except.error "e")).exit ≠
      .uncaught "IndexError: list index out of range" :=
  ⟨(C9_unguarded_argv ⟨0, "x", ""⟩ (Except.error "e")).1 ["op_to_yaml.py"] (by decide),
   (C9_unguarded_argv ⟨0, "x", ""⟩ (Except.error "e")).2 ["op_to_yaml.py", "v1", "db-creds"]
     (by decide)⟩

end OpToYaml
